import Mathlib

/-!
Verification of the hisecon contact-form mailer.

The repository contains three iterations of the same handler:

* `src/hisecon.py` — the current Flask version reading query parameters
  (namespace `Hisecon` below);
* `src/hisecon/` — the JSON-body package version
  (namespace `HiseconPkg` below);
* `src/src/hisecon.py` — the legacy class-based version
  (namespace `Legacy` below).

External collaborators (the web framework, the reCAPTCHA HTTP client and
the SMTP client) are abstracted: request parameters arrive as records of
optional strings, the CAPTCHA outcome and the SMTP delivery outcome are
explicit parameters of the handlers.  Each handler is embedded as a total
function returning a trace that records the HTTP status, the response
message, whether the CAPTCHA verifier was invoked, whether the mail
transport was invoked, and the emails handed to the transport.
-/

/-! ## Models of the Python standard-library string operations used -/

/-- Python truthiness of an optional string: `None` and the empty string
are falsy, every other string is truthy. -/
def falsyOpt : Option String → Bool
  | none => true
  | some s => s == ""

/-- Python truthiness, positive form. -/
def truthyOpt (o : Option String) : Bool := !(falsyOpt o)

/-- ASCII whitespace stripped by the Python default `str.strip()`. -/
def isPySpace (c : Char) : Bool :=
  c == ' ' || c == '\t' || c == '\n' || c == '\r' || c == '\x0b' || c == '\x0c'

/-- Model of `str.strip()` on the character list (ASCII whitespace). -/
def stripChars (l : List Char) : List Char :=
  ((l.dropWhile isPySpace).reverse.dropWhile isPySpace).reverse

/-- Model of the Python default `str.strip()`. -/
def pyStrip (s : String) : String := ⟨stripChars s.data⟩

/-- Model of `str.split(",")` on the character list. -/
def splitCommaChars : List Char → List (List Char)
  | [] => [[]]
  | ',' :: rest => [] :: splitCommaChars rest
  | c :: rest =>
    match splitCommaChars rest with
    | g :: gs => (c :: g) :: gs
    | [] => [[c]]

/-- Model of the Python `str.split(",")`. -/
def pySplitComma (s : String) : List String :=
  (splitCommaChars s.data).map fun l => ⟨l⟩

/-- Model of `str.replace("<br>", "\n")` on the character list: the
leftmost occurrence is replaced first and matches do not overlap,
exactly as in CPython. -/
def brToNl : List Char → List Char
  | '<' :: 'b' :: 'r' :: '>' :: rest => '\n' :: brToNl rest
  | c :: rest => c :: brToNl rest
  | [] => []

/-- Model of the Python `text.replace("<br>", "\n")`. -/
def pyReplaceBr (s : String) : String := ⟨brToNl s.data⟩

/-- Value of a hexadecimal digit, if the character is one. -/
def hexDigit? (c : Char) : Option Nat :=
  if '0' ≤ c ∧ c ≤ '9' then some (c.toNat - '0'.toNat)
  else if 'a' ≤ c ∧ c ≤ 'f' then some (c.toNat - 'a'.toNat + 10)
  else if 'A' ≤ c ∧ c ≤ 'F' then some (c.toNat - 'A'.toNat + 10)
  else none

/-- Model of `urllib.parse.unquote` on the character list, restricted to
ASCII percent-escapes: `%xy` with both digits hexadecimal and a value
below 0x80 decodes to that character; a percent sign not followed by two
hexadecimal digits is kept literally, as in CPython.  Escapes of bytes at
or above 0x80 (which CPython decodes as UTF-8 byte sequences) are kept
literally in this model; no theorem below evaluates the function on such
input. -/
def unquoteChars : List Char → List Char
  | '%' :: a :: b :: rest =>
    match hexDigit? a, hexDigit? b with
    | some ha, some hb =>
      if ha * 16 + hb < 128 then Char.ofNat (ha * 16 + hb) :: unquoteChars rest
      else '%' :: a :: b :: unquoteChars rest
    | _, _ => '%' :: unquoteChars (a :: b :: rest)
  | c :: rest => c :: unquoteChars rest
  | [] => []

/-- Model of the Python `urllib.parse.unquote` (ASCII range). -/
def pyUnquote (s : String) : String := ⟨unquoteChars s.data⟩


/-! ## The current version: `src/hisecon.py` (Flask, query parameters) -/

namespace Hisecon

/-- The `mail` section of `hisecon.conf`: the keys HOST, PORT, USER,
PASSWD and from are the only ones the program reads.  PORT is converted
with `int` on every read; we model a well-formed configuration and keep
it as a natural number. -/
structure MailConfig where
  host : String
  port : Nat
  user : String
  passwd : String
  fromAddr : String
deriving DecidableEq, Repr

/-- An optional per-site `smtp` object in `hisecon.json`; every field may
be absent. -/
structure Smtp where
  host : Option String
  port : Option Nat
  user : Option String
  passwd : Option String
  ssl : Option Bool
  fromAddr : Option String
deriving DecidableEq, Repr

/-- One entry of `hisecon.json`: an absent `recipients` key is modelled
as the empty list, matching `SITE.get("recipients", ())`. -/
structure SiteConfig where
  secret : Option String
  smtp : Option Smtp
  recipients : List String
deriving DecidableEq, Repr

/-- The query parameters the handler reads from `request.args`. -/
structure Args where
  config : Option String
  response : Option String
  subject : Option String
  recipient : Option String
  recipients : Option String
  issuer : Option String
  remoteip : Option String
  reply_to : Option String
  format : Option String
  html : Option String
deriving DecidableEq, Repr

/-- One incoming request: query parameters plus the raw body
`request.get_data(as_text=True)`. -/
structure Request where
  args : Args
  data : String
deriving DecidableEq, Repr

/-- The `emaillib.EMail` object as the handler populates it. -/
structure EMail where
  subject : String
  sender : String
  recipient : String
  plain : Option String
  html : Option String
  reply_to : Option String
deriving DecidableEq, Repr

/-- Connection settings of the `emaillib.Mailer` built by `_load_mailer`. -/
structure MailerSettings where
  host : String
  port : Nat
  user : String
  passwd : String
  ssl : Bool
deriving DecidableEq, Repr

/-- Embedding of `get_format`: the explicit `format` parameter wins;
otherwise `if html or html == ""` makes any present `html` parameter
(including one with an empty value) select html, and absence selects
text. -/
def get_format (args : Args) : String :=
  match args.format with
  | some f => f
  | none =>
    match args.html with
    | some _ => "html"
    | none => "text"

/-- Embedding of `get_body`: returns the pair (plain, html). -/
def get_body (args : Args) (data : String) : Option String × Option String :=
  let fmt := get_format args
  if fmt == "html" then (none, some data)
  else if fmt == "json" then (none, some data)
  else (some (pyReplaceBr data), none)

/-- Embedding of `get_recipients`: site recipients, then the deprecated
singular `recipient` parameter whenever present, then the entries of the
comma-separated `recipients` parameter (guarded by Python truthiness,
stripped, empty entries dropped by `filter(None, ...)`), then the
`issuer` parameter whenever present. -/
def get_recipients (site : SiteConfig) (args : Args) : List String :=
  site.recipients
    ++ (match args.recipient with
        | some r => [r]
        | none => [])
    ++ (match args.recipients with
        | some rs =>
          if rs == "" then []
          else ((pySplitComma rs).map pyStrip).filter (fun e => !(e == ""))
        | none => [])
    ++ (match args.issuer with
        | some i => [i]
        | none => [])

/-- Embedding of `get_sender`: `SITE["smtp"]["from"]` with fallback to
`CONFIG["mail"]["from"]` on a missing key. -/
def get_sender (cfg : MailConfig) (site : SiteConfig) : String :=
  match site.smtp with
  | some sm =>
    match sm.fromAddr with
    | some f => f
    | none => cfg.fromAddr
  | none => cfg.fromAddr

/-- Embedding of `_load_mailer`: `SITE.get("smtp", {})` with per-field
`smtp.get(key, default)`; the ssl fallback is the constant `True`. -/
def load_mailer (cfg : MailConfig) (site : SiteConfig) : MailerSettings :=
  let smtp := match site.smtp with
    | some s => s
    | none => ⟨none, none, none, none, none, none⟩
  ⟨(match smtp.host with | some h => h | none => cfg.host),
   (match smtp.port with | some p => p | none => cfg.port),
   (match smtp.user with | some u => u | none => cfg.user),
   (match smtp.passwd with | some p => p | none => cfg.passwd),
   (match smtp.ssl with | some b => b | none => true)⟩

/-- Embedding of the generator `get_emails`, forced like `tuple(...)`:
a missing subject and an empty body raise `Error` (status 400); otherwise
one email per merged recipient is produced, with the truthiness-guarded
reply-to header. -/
def get_emails (cfg : MailConfig) (site : SiteConfig) (req : Request) :
    Except (Nat × String) (List EMail) :=
  match req.args.subject with
  | none => .error (400, "No subject provided")
  | some subject =>
    let sender := get_sender cfg site
    let (plain, html) := get_body req.args req.data
    if falsyOpt plain && falsyOpt html then
      .error (400, "No message body provided.")
    else
      .ok ((get_recipients site req.args).map fun recipient =>
        ⟨subject, sender, recipient, plain, html,
          match req.args.reply_to with
          | some rt => if rt == "" then none else some rt
          | none => none⟩)

/-- Observable outcome of one request. -/
structure Trace where
  status : Nat
  message : String
  captchaInvoked : Bool
  sendInvoked : Bool
  sent : List EMail
deriving DecidableEq, Repr

/-- Embedding of the route handler `send_emails`.  Python evaluates the
arguments of `verify(_load_secret(), get_response(), ...)` left to right,
so the site (hence the `config` parameter) and its secret are resolved
before the `response` parameter, and all of them before the verifier
runs; `captchaOk` abstracts the external verifier (`False` means it
raised `VerificationError`), `mailerOk` abstracts the truthiness of
`MAILER.send(emails)`. -/
def send_emails (cfg : MailConfig) (sites : List (String × SiteConfig))
    (req : Request) (captchaOk : Bool) (mailerOk : Bool) : Trace :=
  match req.args.config with
  | none => ⟨400, "No configuration provided.", false, false, []⟩
  | some c =>
    match sites.lookup c with
    | none => ⟨400, "No such configuration: " ++ c, false, false, []⟩
    | some site =>
      match site.secret with
      | none => ⟨500, "No secret specified.", false, false, []⟩
      | some _ =>
        match req.args.response with
        | none => ⟨400, "No reCAPTCHA response provided.", false, false, []⟩
        | some _ =>
          if captchaOk then
            match get_emails cfg site req with
            | .error (s, m) => ⟨s, m, true, false, []⟩
            | .ok emails =>
              if emails.isEmpty then
                ⟨400, "No recipients specified.", true, false, []⟩
              else if mailerOk then
                ⟨200, "Emails sent.", true, true, emails⟩
              else
                ⟨500, "Could not send (all) emails.", true, true, emails⟩
          else ⟨400, "reCAPTCHA check failed.", true, false, []⟩

end Hisecon

/-! ## The package version: `src/hisecon/` (JSON request body)

The site registry and the global configuration have the same shape as in
the current version, so `Hisecon.MailConfig`, `Hisecon.SiteConfig` and
`Hisecon.Smtp` are reused. -/

namespace HiseconPkg

open Hisecon (MailConfig SiteConfig)

/-- The fields the handler reads from `request.json`.  The value under
the `recipients` key is a JSON list, absent modelled as `[]`, matching
`request.json.get("recipients", [])`. -/
structure Request where
  config : Option String
  response : Option String
  subject : Option String
  contentType : Option String
  text : Option String
  recipients : List String
  replyTo : Option String
deriving DecidableEq, Repr

/-- The `emaillib.EMail` object as this version populates it: the
reply-to header is attached whenever the `replyTo` key is not `None`,
even for the empty string. -/
structure EMail where
  subject : String
  sender : String
  recipient : String
  plain : Option String
  html : Option String
  replyTo : Option String
deriving DecidableEq, Repr

/-- Embedding of `get_content_type`. -/
def get_content_type (req : Request) : Except (Nat × String) String :=
  match req.contentType with
  | some ct => .ok ct
  | none => .error (400, "No content type provided")

/-- Embedding of `get_text`. -/
def get_text (req : Request) : Except (Nat × String) String :=
  match req.text with
  | some t => .ok t
  | none => .error (400, "No text provided")

/-- Embedding of `get_html_text`: the message text is returned when the
content type equals text/plain, otherwise `None`. -/
def get_html_text (req : Request) : Except (Nat × String) (Option String) := do
  if (← get_content_type req) == "text/plain" then
    return some (← get_text req)
  return none

/-- Embedding of `get_plain_text`: the message text is returned when the
content type is text/html or application/xhtml+xml, otherwise `None`. -/
def get_plain_text (req : Request) : Except (Nat × String) (Option String) := do
  let ct ← get_content_type req
  if ct == "text/html" || ct == "application/xhtml+xml" then
    return some (← get_text req)
  return none

/-- Embedding of `get_recipients`: site recipients followed by the JSON
`recipients` list. -/
def get_recipients (site : SiteConfig) (req : Request) : List String :=
  site.recipients ++ req.recipients

/-- Embedding of `get_subject`. -/
def get_subject (req : Request) : Except (Nat × String) String :=
  match req.subject with
  | some s => .ok s
  | none => .error (400, "No subject provided")

/-- Embedding of `get_sender`, identical to the current version. -/
def get_sender (cfg : MailConfig) (site : SiteConfig) : String :=
  Hisecon.get_sender cfg site

/-- Embedding of the generator `get_emails`, forced like `tuple(...)`:
each loop iteration evaluates subject, sender, plain text and HTML text;
there is no check that either body is non-empty in this version. -/
def get_emails (cfg : MailConfig) (site : SiteConfig) (req : Request) :
    Except (Nat × String) (List EMail) :=
  (get_recipients site req).mapM fun recipient => do
    let subject ← get_subject req
    let sender := get_sender cfg site
    let plain ← get_plain_text req
    let html ← get_html_text req
    return ⟨subject, sender, recipient, plain, html, req.replyTo⟩

/-- Observable outcome of one request in this version. -/
structure Trace where
  status : Nat
  message : String
  captchaInvoked : Bool
  sendInvoked : Bool
  sent : List EMail
deriving DecidableEq, Repr

/-- Embedding of the route handler `send_emails` in `hisecon/wsgi.py`:
`verify()` resolves the site (hence `config`) and its secret, then the
`response` parameter, then calls the external verifier (`captchaOk` is
`False` when that raised `VerificationError`); the return value of
`MAILER.send(emails)` is ignored, so delivery always reports success. -/
def send_emails (cfg : MailConfig) (sites : List (String × SiteConfig))
    (req : Request) (captchaOk : Bool) : Trace :=
  match req.config with
  | none => ⟨400, "No configuration provided.", false, false, []⟩
  | some c =>
    match sites.lookup c with
    | none => ⟨400, "No such configuration: " ++ c, false, false, []⟩
    | some site =>
      match site.secret with
      | none => ⟨500, "No secret specified.", false, false, []⟩
      | some _ =>
        match req.response with
        | none => ⟨400, "No reCAPTCHA response provided.", false, false, []⟩
        | some _ =>
          if captchaOk then
            match get_emails cfg site req with
            | .error (s, m) => ⟨s, m, true, false, []⟩
            | .ok emails =>
              if emails.isEmpty then
                ⟨400, "No recipients specified.", true, false, []⟩
              else ⟨200, "Emails sent.", true, true, emails⟩
          else ⟨400, "reCAPTCHA check failed.", true, false, []⟩

end HiseconPkg

/-! ## The legacy version: `src/src/hisecon.py` (class-based handler) -/

namespace Legacy

/-- The `mail` section of `/etc/hisecon.conf` as this version reads it:
HOST, PORT, USER, PASSWD and FROM. -/
structure MailConfig where
  host : String
  port : Nat
  user : String
  passwd : String
  fromAddr : String
deriving DecidableEq, Repr

/-- One entry of `/etc/hisecon.json` in the legacy flat layout.  The
expression `site.get("recipients") or []` collapses an absent or empty
value to the empty list, so `recipients` is modelled as a list. -/
structure Site where
  secret : Option String
  smtp_host : Option String
  smtp_port : Option String
  smtp_ssl : Option Bool
  smtp_user : Option String
  smtp_passwd : Option String
  smtp_from : Option String
  recipients : List String
deriving DecidableEq, Repr

/-- The request parameters this handler reads via `self.params`.  The
`recipients` and `format` keys may arrive with a request but are never
read by this version of the code. -/
structure Params where
  config : Option String
  response : Option String
  recipient : Option String
  subject : Option String
  remoteip : Option String
  issuer : Option String
  html : Option String
  recipients : Option String
  format : Option String
deriving DecidableEq, Repr

/-- One incoming request: parameters plus the raw body
`self.data.decode()`. -/
structure Request where
  params : Params
  data : String
deriving DecidableEq, Repr

/-- The `homeinfo.lib.mail.EMail` object as this version populates it. -/
structure EMail where
  subject : String
  sender : String
  recipient : String
  plain : Option String
  html : Option String
deriving DecidableEq, Repr

/-- Outcome of the external reCAPTCHA HTTP call: either the response
body is not JSON (`loads` raises `ValueError`), or it parses and the
`success` field is a JSON boolean or absent. -/
inductive CaptchaResult where
  | unparseable
  | parsed (success : Option Bool)
deriving DecidableEq, Repr

/-- Outcome of `mailer.send(emails, fg=True)` in `_send_mails`. -/
inductive SmtpOutcome where
  | delivered
  | authError
  | recipientsRefused
  | otherError
deriving DecidableEq, Repr

/-- Embedding of `html = True if self.params.get("html") else False`:
the flag is set only for a present, non-empty value. -/
def htmlFlag (p : Params) : Bool := truthyOpt p.html

/-- Embedding of `site.get(key) or default`: an absent or empty override
falls back to the default. -/
def orDefault (v : Option String) (d : String) : String :=
  match v with
  | some s => if s == "" then d else s
  | none => d

/-- Embedding of the `smtp_port` resolution: `int(site.get("smtp_port"))`
falls back to the configured port when the value is absent
(`TypeError`) or not a number (`ValueError`). -/
def resolvePort (v : Option String) (d : Nat) : Nat :=
  match v with
  | some s =>
    match s.toNat? with
    | some n => n
    | none => d
  | none => d

/-- Connection settings assembled at lines 141-158 of the legacy
handler.  They parameterize the external `Mailer` and do not influence
the observable trace; delivery is abstracted by `SmtpOutcome`. -/
structure MailerSettings where
  host : String
  port : Nat
  user : String
  passwd : String
  ssl : Option Bool
deriving DecidableEq, Repr

/-- Embedding of the SMTP settings resolution in the legacy `post`:
host, user and password use `or`-fallbacks, the port uses the
`int`-conversion fallback, and `smtp_ssl` defaults to `None` with no
configuration fallback at all. -/
def smtp_settings (cfg : MailConfig) (site : Site) : MailerSettings :=
  ⟨orDefault site.smtp_host cfg.host,
   resolvePort site.smtp_port cfg.port,
   orDefault site.smtp_user cfg.user,
   orDefault site.smtp_passwd cfg.passwd,
   site.smtp_ssl⟩

/-- Embedding of `_get_text`: the raw body is percent-decoded with
`unquote`; with the html flag it becomes the HTML body, otherwise it
becomes the plain body with `<br>` replaced by newlines after decoding.
The result pair is (body_html, body_plain), as in the source. -/
def get_text (data : String) (html : Bool) : Option String × Option String :=
  if html then (some (pyUnquote data), none)
  else (none, some (pyReplaceBr (pyUnquote data)))

/-- Embedding of `ReCaptcha.verify` on a parsed response:
`response_dict.get("success", False) is True`. -/
def recaptchaVerify : Option Bool → Bool
  | some true => true
  | some false => false
  | none => false

/-- Observable outcome of one request in the legacy version. -/
structure Trace where
  status : Nat
  message : String
  captchaInvoked : Bool
  sendInvoked : Bool
  sent : List EMail
deriving DecidableEq, Repr

/-- Embedding of the legacy `post` handler.  `config` is fetched with
`self.params.get`, so a missing key yields `None` and the site lookup
fails with the same 400 error as an unknown identifier.  The checks run
in source order: site, secret, response, recipient, subject (then
percent-decoded), then the CAPTCHA call inside the outer
`try/except ValueError`; on success the recipients are merged (singular
`recipient` and `issuer` only when truthy), the body is produced by
`_get_text`, an empty body is rejected, and `_send_mails` maps the SMTP
outcome to a response. -/
def post (cfg : MailConfig) (sites : List (String × Site)) (req : Request)
    (captcha : CaptchaResult) (smtp : SmtpOutcome) : Trace :=
  let p := req.params
  let html := htmlFlag p
  let site? := match p.config with
    | none => none
    | some c => sites.lookup c
  match site? with
  | none => ⟨400, "No such configuration entry", false, false, []⟩
  | some site =>
    match site.secret with
    | none => ⟨500, "No secret specified for configuration", false, false, []⟩
    | some _ =>
      match p.response with
      | none => ⟨400, "No reCAPTCHA response provided", false, false, []⟩
      | some _ =>
        match p.subject with
        | none => ⟨400, "No subject provided", false, false, []⟩
        | some subject0 =>
          let subject := pyUnquote subject0
          match captcha with
          | .unparseable =>
            ⟨500, "Could not parse JSON response of reCAPTCHA", true, false, []⟩
          | .parsed success =>
            if recaptchaVerify success then
              let sender := orDefault site.smtp_from cfg.fromAddr
              let recipients := site.recipients
                ++ (if truthyOpt p.recipient then [p.recipient.getD ""] else [])
                ++ (if truthyOpt p.issuer then [p.issuer.getD ""] else [])
              let (body_html, body_plain) := get_text req.data html
              if falsyOpt body_plain && falsyOpt body_html then
                ⟨400, "No message provided", true, false, []⟩
              else
                let emails := recipients.map fun r =>
                  ⟨subject, sender, r, body_plain, body_html⟩
                match smtp with
                | .delivered => ⟨200, "Emails sent", true, true, emails⟩
                | .authError => ⟨500, "Invalid credentials", true, true, emails⟩
                | .recipientsRefused => ⟨500, "Recipient refused", true, true, emails⟩
                | .otherError => ⟨500, "Unknown error", true, true, emails⟩
            else ⟨400, "reCAPTCHA check failed", true, false, []⟩

end Legacy

/-! ## Claim-following definitions used for refinement comparisons -/

/-- Follows the words of claim C5: the merged recipient sequence is the
union of the site recipients, the deprecated singular recipient
parameter when present, the entries of the comma-separated recipients
parameter with surrounding whitespace trimmed and empty entries dropped,
and the issuer parameter appended last when present. -/
def merged_recipients_spec (siteRecipients : List String)
    (recipient recipients issuer : Option String) : List String :=
  siteRecipients
    ++ (match recipient with
        | some r => [r]
        | none => [])
    ++ (match recipients with
        | some rs => ((pySplitComma rs).map pyStrip).filter (fun e => !(e == ""))
        | none => [])
    ++ (match issuer with
        | some i => [i]
        | none => [])

/-- The mail-section defaults as claim C6 describes them: with a TLS
default among them.  The program reads no TLS value from the mail
section, which is what the comparison below exposes. -/
structure MailConfigClaim where
  host : String
  port : Nat
  user : String
  passwd : String
  fromAddr : String
  tls : Bool
deriving DecidableEq, Repr

/-- Follows the words of claim C6: every SMTP connection setting, the
TLS flag included, equals the per-site override when present and the
global mail-section default otherwise. -/
def load_mailer_claim (cfg : MailConfigClaim) (site : Hisecon.SiteConfig) :
    Hisecon.MailerSettings :=
  let smtp := match site.smtp with
    | some s => s
    | none => ⟨none, none, none, none, none, none⟩
  ⟨smtp.host.getD cfg.host,
   smtp.port.getD cfg.port,
   smtp.user.getD cfg.user,
   smtp.passwd.getD cfg.passwd,
   smtp.ssl.getD cfg.tls⟩

/-! ## Concrete fixtures used by counterexamples and witnesses -/

/-- A site with a secret, no SMTP overrides and one default recipient. -/
def site0 : Hisecon.SiteConfig := ⟨some "sec", none, ["a@x.com"]⟩

/-- A registry holding `site0` under the identifier acme. -/
def sites0 : List (String × Hisecon.SiteConfig) := [("acme", site0)]

/-- A site with a secret and no default recipients. -/
def siteNoRec : Hisecon.SiteConfig := ⟨some "sec", none, []⟩

/-- A registry holding `siteNoRec` under the identifier acme. -/
def sitesNoRec : List (String × Hisecon.SiteConfig) := [("acme", siteNoRec)]

/-- A concrete global mail configuration. -/
def cfg0 : Hisecon.MailConfig := ⟨"mail.host", 25, "u", "p", "noreply@x.com"⟩

/-- The claim-shaped configuration agreeing with `cfg0` and carrying the
TLS default `false`. -/
def cfgClaim0 : MailConfigClaim := ⟨"mail.host", 25, "u", "p", "noreply@x.com", false⟩

/-- A current-version request whose `subject` parameter is absent while
`config` and `response` are present. -/
def reqA_noSubject : Hisecon.Request :=
  ⟨⟨some "acme", some "tok", none, none, none, none, none, none, none, none⟩, "hello"⟩

/-- A current-version request whose `response` parameter is absent. -/
def reqA_noResponse : Hisecon.Request :=
  ⟨⟨some "acme", none, some "Hi", none, none, none, none, none, none, none⟩, "hello"⟩

/-- A fully valid current-version request with default text format. -/
def reqA_ok : Hisecon.Request :=
  ⟨⟨some "acme", some "tok", some "Hi", none, none, none, none, none, none, none⟩, "hello"⟩

/-- The email `reqA_ok` produces for the single site recipient. -/
def emailA_ok : Hisecon.EMail :=
  ⟨"Hi", "noreply@x.com", "a@x.com", some "hello", none, none⟩

/-- A current-version request whose raw body is empty, so both resolved
bodies are empty. -/
def reqA_emptyBody : Hisecon.Request :=
  ⟨⟨some "acme", some "tok", some "Hi", none, none, none, none, none, none, none⟩, ""⟩

/-- A current-version request with no recipient from any source: the
site is `siteNoRec` and the recipient, recipients and issuer parameters
are absent. -/
def reqA_noRecipients : Hisecon.Request :=
  ⟨⟨some "acme", some "tok", some "Hi", none, none, none, none, none, none, none⟩, "hello"⟩

/-- A current-version request whose subject parameter holds the literal
percent-escape a%20b. -/
def reqA_pctSubject : Hisecon.Request :=
  ⟨⟨some "acme", some "tok", some "a%20b", none, none, none, none, none, none, none⟩, "hello"⟩

/-- Current-version query parameters with nothing set: the format
resolves to text. -/
def argsA_text : Hisecon.Args :=
  ⟨none, none, none, none, none, none, none, none, none, none⟩

/-- Current-version query parameters with an explicit html format. -/
def argsA_html : Hisecon.Args :=
  ⟨none, none, none, none, none, none, none, none, some "html", none⟩

/-- A JSON-body request whose content type is neither text/plain nor an
HTML type, so both resolved bodies are `None`. -/
def reqB_otherType : HiseconPkg.Request :=
  ⟨some "acme", some "tok", some "Hi", some "application/json", some "hello", [], none⟩

/-- A JSON-body request with content type text/plain and a message. -/
def reqB_plainType : HiseconPkg.Request :=
  ⟨some "acme", some "tok", some "Hi", some "text/plain", some "msg", [], none⟩

/-- A JSON-body request naming no recipients of its own. -/
def reqB_noRecipients : HiseconPkg.Request :=
  ⟨some "acme", some "tok", some "Hi", some "text/plain", some "msg", [], none⟩

/-- A legacy site with a secret, no overrides and one recipient. -/
def lsite0 : Legacy.Site := ⟨some "sec", none, none, none, none, none, none, ["a@x.com"]⟩

/-- A legacy registry holding `lsite0` under the identifier acme. -/
def lsites0 : List (String × Legacy.Site) := [("acme", lsite0)]

/-- A concrete legacy mail configuration. -/
def lcfg0 : Legacy.MailConfig := ⟨"mail.host", 25, "u", "p", "noreply@x.com"⟩

/-- A legacy request with the html flag set and a percent-escape in the
raw body. -/
def reqL_htmlPct : Legacy.Request :=
  ⟨⟨some "acme", some "tok", none, some "S", none, none, some "1", none, none⟩, "a%20b"⟩

/-- A legacy request whose html flag is present with an empty value. -/
def reqL_emptyHtml : Legacy.Request :=
  ⟨⟨some "acme", some "tok", none, some "S", none, none, some "", none, none⟩, "x"⟩

/-- A legacy request carrying a comma-separated recipients parameter,
which this version of the code never reads. -/
def reqL_recipients : Legacy.Request :=
  ⟨⟨some "acme", some "tok", none, some "S", none, none, none,
    some "b@x.com,c@x.com", none⟩, "hello"⟩

/-- A legacy request with a percent-escape in the subject parameter. -/
def reqL_pctSubject : Legacy.Request :=
  ⟨⟨some "acme", some "tok", none, some "a%20b", none, none, none, none, none⟩, "hello"⟩

/-- A per-site smtp object overriding every setting. -/
def smtpFull : Hisecon.Smtp :=
  ⟨some "h2", some 2525, some "u2", some "p2", some false, some "f2"⟩

/-- A site carrying the full smtp override. -/
def siteSmtp : Hisecon.SiteConfig := ⟨some "sec", some smtpFull, []⟩

/-! ## Step lemmas for the current-version handler -/

theorem sendA_config_none (cfg : Hisecon.MailConfig) (sites : List (String × Hisecon.SiteConfig))
    (req : Hisecon.Request) (cOk mOk : Bool) (h : req.args.config = none) :
    Hisecon.send_emails cfg sites req cOk mOk =
      ⟨400, "No configuration provided.", false, false, []⟩ := by
  simp only [Hisecon.send_emails, h]

theorem sendA_site_none (cfg : Hisecon.MailConfig) (sites : List (String × Hisecon.SiteConfig))
    (req : Hisecon.Request) (cOk mOk : Bool) (c : String)
    (hc : req.args.config = some c) (hl : sites.lookup c = none) :
    Hisecon.send_emails cfg sites req cOk mOk =
      ⟨400, "No such configuration: " ++ c, false, false, []⟩ := by
  simp only [Hisecon.send_emails, hc, hl]

theorem sendA_secret_none (cfg : Hisecon.MailConfig) (sites : List (String × Hisecon.SiteConfig))
    (req : Hisecon.Request) (cOk mOk : Bool) (c : String) (site : Hisecon.SiteConfig)
    (hc : req.args.config = some c) (hl : sites.lookup c = some site)
    (hs : site.secret = none) :
    Hisecon.send_emails cfg sites req cOk mOk =
      ⟨500, "No secret specified.", false, false, []⟩ := by
  simp only [Hisecon.send_emails, hc, hl, hs]

theorem sendA_response_none (cfg : Hisecon.MailConfig) (sites : List (String × Hisecon.SiteConfig))
    (req : Hisecon.Request) (cOk mOk : Bool) (c sec : String) (site : Hisecon.SiteConfig)
    (hc : req.args.config = some c) (hl : sites.lookup c = some site)
    (hs : site.secret = some sec) (hr : req.args.response = none) :
    Hisecon.send_emails cfg sites req cOk mOk =
      ⟨400, "No reCAPTCHA response provided.", false, false, []⟩ := by
  simp only [Hisecon.send_emails, hc, hl, hs, hr]

theorem sendA_captcha_failed (cfg : Hisecon.MailConfig) (sites : List (String × Hisecon.SiteConfig))
    (req : Hisecon.Request) (mOk : Bool) (c sec resp : String) (site : Hisecon.SiteConfig)
    (hc : req.args.config = some c) (hl : sites.lookup c = some site)
    (hs : site.secret = some sec) (hr : req.args.response = some resp) :
    Hisecon.send_emails cfg sites req false mOk =
      ⟨400, "reCAPTCHA check failed.", true, false, []⟩ := by
  simp only [Hisecon.send_emails, hc, hl, hs, hr]
  simp

theorem sendA_emails_error (cfg : Hisecon.MailConfig) (sites : List (String × Hisecon.SiteConfig))
    (req : Hisecon.Request) (mOk : Bool) (c sec resp : String) (site : Hisecon.SiteConfig)
    (s : Nat) (m : String)
    (hc : req.args.config = some c) (hl : sites.lookup c = some site)
    (hs : site.secret = some sec) (hr : req.args.response = some resp)
    (he : Hisecon.get_emails cfg site req = .error (s, m)) :
    Hisecon.send_emails cfg sites req true mOk = ⟨s, m, true, false, []⟩ := by
  simp only [Hisecon.send_emails, hc, hl, hs, hr, he, if_true]

theorem sendA_emails_empty (cfg : Hisecon.MailConfig) (sites : List (String × Hisecon.SiteConfig))
    (req : Hisecon.Request) (mOk : Bool) (c sec resp : String) (site : Hisecon.SiteConfig)
    (hc : req.args.config = some c) (hl : sites.lookup c = some site)
    (hs : site.secret = some sec) (hr : req.args.response = some resp)
    (he : Hisecon.get_emails cfg site req = .ok []) :
    Hisecon.send_emails cfg sites req true mOk =
      ⟨400, "No recipients specified.", true, false, []⟩ := by
  simp only [Hisecon.send_emails, hc, hl, hs, hr, he, if_true]
  rfl

theorem sendA_delivery (cfg : Hisecon.MailConfig) (sites : List (String × Hisecon.SiteConfig))
    (req : Hisecon.Request) (mOk : Bool) (c sec resp : String) (site : Hisecon.SiteConfig)
    (e : Hisecon.EMail) (es : List Hisecon.EMail)
    (hc : req.args.config = some c) (hl : sites.lookup c = some site)
    (hs : site.secret = some sec) (hr : req.args.response = some resp)
    (he : Hisecon.get_emails cfg site req = .ok (e :: es)) :
    Hisecon.send_emails cfg sites req true mOk =
      (if mOk then ⟨200, "Emails sent.", true, true, e :: es⟩
       else ⟨500, "Could not send (all) emails.", true, true, e :: es⟩) := by
  simp only [Hisecon.send_emails, hc, hl, hs, hr, he, if_true]
  rfl

/-! ## Lemmas about the current-version email generator -/

theorem getEmailsA_no_subject (cfg : Hisecon.MailConfig) (site : Hisecon.SiteConfig)
    (req : Hisecon.Request) (h : req.args.subject = none) :
    Hisecon.get_emails cfg site req = .error (400, "No subject provided") := by
  simp only [Hisecon.get_emails, h]

theorem getEmailsA_falsy_body (cfg : Hisecon.MailConfig) (site : Hisecon.SiteConfig)
    (req : Hisecon.Request) (subj : String) (hsub : req.args.subject = some subj)
    (hb : (falsyOpt (Hisecon.get_body req.args req.data).1 &&
           falsyOpt (Hisecon.get_body req.args req.data).2) = true) :
    Hisecon.get_emails cfg site req = .error (400, "No message body provided.") := by
  simp only [Hisecon.get_emails, hsub]
  rcases hgb : Hisecon.get_body req.args req.data with ⟨plain, html⟩
  rw [hgb] at hb
  simp only [hb]
  rfl

theorem getEmailsA_ok_inv (cfg : Hisecon.MailConfig) (site : Hisecon.SiteConfig)
    (req : Hisecon.Request) (es : List Hisecon.EMail)
    (h : Hisecon.get_emails cfg site req = .ok es) :
    ∃ subj, req.args.subject = some subj ∧
      (falsyOpt (Hisecon.get_body req.args req.data).1 &&
       falsyOpt (Hisecon.get_body req.args req.data).2) = false ∧
      es = (Hisecon.get_recipients site req.args).map (fun recipient =>
        ⟨subj, Hisecon.get_sender cfg site, recipient,
          (Hisecon.get_body req.args req.data).1,
          (Hisecon.get_body req.args req.data).2,
          match req.args.reply_to with
          | some rt => if rt == "" then none else some rt
          | none => none⟩) := by
  cases hsub : req.args.subject with
  | none => rw [getEmailsA_no_subject cfg site req hsub] at h; cases h
  | some subj =>
    refine ⟨subj, rfl, ?_⟩
    unfold Hisecon.get_emails at h
    rcases hgb : Hisecon.get_body req.args req.data with ⟨plain, html⟩
    simp only [hsub, hgb] at h
    by_cases hb : (falsyOpt plain && falsyOpt html) = true
    · rw [if_pos hb] at h; cases h
    · rw [if_neg hb] at h
      simp only [Except.ok.injEq] at h
      simp only [Bool.not_eq_true] at hb
      exact ⟨hb, h.symm⟩

/-! ## Step lemmas for the JSON-body handler -/

theorem getEmailsB_nil (cfg : Hisecon.MailConfig) (site : Hisecon.SiteConfig)
    (req : HiseconPkg.Request) (h : HiseconPkg.get_recipients site req = []) :
    HiseconPkg.get_emails cfg site req = .ok [] := by
  unfold HiseconPkg.get_emails
  rw [h]
  rfl

theorem sendB_config_none (cfg : Hisecon.MailConfig) (sites : List (String × Hisecon.SiteConfig))
    (req : HiseconPkg.Request) (cOk : Bool) (h : req.config = none) :
    HiseconPkg.send_emails cfg sites req cOk =
      ⟨400, "No configuration provided.", false, false, []⟩ := by
  simp only [HiseconPkg.send_emails, h]

theorem sendB_site_none (cfg : Hisecon.MailConfig) (sites : List (String × Hisecon.SiteConfig))
    (req : HiseconPkg.Request) (cOk : Bool) (c : String)
    (hc : req.config = some c) (hl : sites.lookup c = none) :
    HiseconPkg.send_emails cfg sites req cOk =
      ⟨400, "No such configuration: " ++ c, false, false, []⟩ := by
  simp only [HiseconPkg.send_emails, hc, hl]

theorem sendB_secret_none (cfg : Hisecon.MailConfig) (sites : List (String × Hisecon.SiteConfig))
    (req : HiseconPkg.Request) (cOk : Bool) (c : String) (site : Hisecon.SiteConfig)
    (hc : req.config = some c) (hl : sites.lookup c = some site)
    (hs : site.secret = none) :
    HiseconPkg.send_emails cfg sites req cOk =
      ⟨500, "No secret specified.", false, false, []⟩ := by
  simp only [HiseconPkg.send_emails, hc, hl, hs]

theorem sendB_response_none (cfg : Hisecon.MailConfig) (sites : List (String × Hisecon.SiteConfig))
    (req : HiseconPkg.Request) (cOk : Bool) (c sec : String) (site : Hisecon.SiteConfig)
    (hc : req.config = some c) (hl : sites.lookup c = some site)
    (hs : site.secret = some sec) (hr : req.response = none) :
    HiseconPkg.send_emails cfg sites req cOk =
      ⟨400, "No reCAPTCHA response provided.", false, false, []⟩ := by
  simp only [HiseconPkg.send_emails, hc, hl, hs, hr]

theorem sendB_captcha_failed (cfg : Hisecon.MailConfig) (sites : List (String × Hisecon.SiteConfig))
    (req : HiseconPkg.Request) (c sec resp : String) (site : Hisecon.SiteConfig)
    (hc : req.config = some c) (hl : sites.lookup c = some site)
    (hs : site.secret = some sec) (hr : req.response = some resp) :
    HiseconPkg.send_emails cfg sites req false =
      ⟨400, "reCAPTCHA check failed.", true, false, []⟩ := by
  simp only [HiseconPkg.send_emails, hc, hl, hs, hr]
  simp

theorem sendB_emails_empty (cfg : Hisecon.MailConfig) (sites : List (String × Hisecon.SiteConfig))
    (req : HiseconPkg.Request) (c sec resp : String) (site : Hisecon.SiteConfig)
    (hc : req.config = some c) (hl : sites.lookup c = some site)
    (hs : site.secret = some sec) (hr : req.response = some resp)
    (he : HiseconPkg.get_emails cfg site req = .ok []) :
    HiseconPkg.send_emails cfg sites req true =
      ⟨400, "No recipients specified.", true, false, []⟩ := by
  simp only [HiseconPkg.send_emails, hc, hl, hs, hr, he, if_true]
  rfl

/-! ## Step lemmas for the legacy handler -/

theorem legacyPost_config_none (cfg : Legacy.MailConfig) (sites : List (String × Legacy.Site))
    (req : Legacy.Request) (captcha : Legacy.CaptchaResult) (smtp : Legacy.SmtpOutcome)
    (h : req.params.config = none) :
    Legacy.post cfg sites req captcha smtp =
      ⟨400, "No such configuration entry", false, false, []⟩ := by
  simp only [Legacy.post, h]

theorem legacyPost_site_none (cfg : Legacy.MailConfig) (sites : List (String × Legacy.Site))
    (req : Legacy.Request) (captcha : Legacy.CaptchaResult) (smtp : Legacy.SmtpOutcome)
    (c : String) (hc : req.params.config = some c) (hl : sites.lookup c = none) :
    Legacy.post cfg sites req captcha smtp =
      ⟨400, "No such configuration entry", false, false, []⟩ := by
  simp only [Legacy.post, hc, hl]

theorem legacyPost_secret_none (cfg : Legacy.MailConfig) (sites : List (String × Legacy.Site))
    (req : Legacy.Request) (captcha : Legacy.CaptchaResult) (smtp : Legacy.SmtpOutcome)
    (c : String) (site : Legacy.Site)
    (hc : req.params.config = some c) (hl : sites.lookup c = some site)
    (hs : site.secret = none) :
    Legacy.post cfg sites req captcha smtp =
      ⟨500, "No secret specified for configuration", false, false, []⟩ := by
  simp only [Legacy.post, hc, hl, hs]

theorem legacyPost_response_none (cfg : Legacy.MailConfig) (sites : List (String × Legacy.Site))
    (req : Legacy.Request) (captcha : Legacy.CaptchaResult) (smtp : Legacy.SmtpOutcome)
    (c sec : String) (site : Legacy.Site)
    (hc : req.params.config = some c) (hl : sites.lookup c = some site)
    (hs : site.secret = some sec) (hr : req.params.response = none) :
    Legacy.post cfg sites req captcha smtp =
      ⟨400, "No reCAPTCHA response provided", false, false, []⟩ := by
  simp only [Legacy.post, hc, hl, hs, hr]

theorem legacyPost_subject_none (cfg : Legacy.MailConfig) (sites : List (String × Legacy.Site))
    (req : Legacy.Request) (captcha : Legacy.CaptchaResult) (smtp : Legacy.SmtpOutcome)
    (c sec resp : String) (site : Legacy.Site)
    (hc : req.params.config = some c) (hl : sites.lookup c = some site)
    (hs : site.secret = some sec) (hr : req.params.response = some resp)
    (hsub : req.params.subject = none) :
    Legacy.post cfg sites req captcha smtp =
      ⟨400, "No subject provided", false, false, []⟩ := by
  simp only [Legacy.post, hc, hl, hs, hr, hsub]

theorem legacyPost_unparseable (cfg : Legacy.MailConfig) (sites : List (String × Legacy.Site))
    (req : Legacy.Request) (smtp : Legacy.SmtpOutcome)
    (c sec resp s0 : String) (site : Legacy.Site)
    (hc : req.params.config = some c) (hl : sites.lookup c = some site)
    (hs : site.secret = some sec) (hr : req.params.response = some resp)
    (hsub : req.params.subject = some s0) :
    Legacy.post cfg sites req .unparseable smtp =
      ⟨500, "Could not parse JSON response of reCAPTCHA", true, false, []⟩ := by
  simp only [Legacy.post, hc, hl, hs, hr, hsub]

theorem legacyPost_captcha_failed (cfg : Legacy.MailConfig) (sites : List (String × Legacy.Site))
    (req : Legacy.Request) (smtp : Legacy.SmtpOutcome) (success : Option Bool)
    (c sec resp s0 : String) (site : Legacy.Site)
    (hc : req.params.config = some c) (hl : sites.lookup c = some site)
    (hs : site.secret = some sec) (hr : req.params.response = some resp)
    (hsub : req.params.subject = some s0)
    (hv : Legacy.recaptchaVerify success = false) :
    Legacy.post cfg sites req (.parsed success) smtp =
      ⟨400, "reCAPTCHA check failed", true, false, []⟩ := by
  simp only [Legacy.post, hc, hl, hs, hr, hsub, hv]
  simp

theorem legacyPost_verified_message (cfg : Legacy.MailConfig) (sites : List (String × Legacy.Site))
    (req : Legacy.Request) (smtp : Legacy.SmtpOutcome) (success : Option Bool)
    (c sec resp s0 : String) (site : Legacy.Site)
    (hc : req.params.config = some c) (hl : sites.lookup c = some site)
    (hs : site.secret = some sec) (hr : req.params.response = some resp)
    (hsub : req.params.subject = some s0)
    (hv : Legacy.recaptchaVerify success = true) :
    (Legacy.post cfg sites req (.parsed success) smtp).message ≠ "reCAPTCHA check failed" := by
  simp only [Legacy.post, hc, hl, hs, hr, hsub, hv, if_true]
  split
  · simp
  · cases smtp <;> simp

theorem legacyPost_subject_inv (cfg : Legacy.MailConfig) (sites : List (String × Legacy.Site))
    (req : Legacy.Request) (captcha : Legacy.CaptchaResult) (smtp : Legacy.SmtpOutcome)
    (e : Legacy.EMail) (he : e ∈ (Legacy.post cfg sites req captcha smtp).sent) :
    ∃ s0, req.params.subject = some s0 ∧ e.subject = pyUnquote s0 := by
  unfold Legacy.post at he
  cases hc : req.params.config with
  | none => simp [hc] at he
  | some c =>
    cases hl : List.lookup c sites with
    | none => simp [hc, hl] at he
    | some site =>
      cases hs : site.secret with
      | none => simp [hc, hl, hs] at he
      | some sec =>
        cases hr : req.params.response with
        | none => simp [hc, hl, hs, hr] at he
        | some resp =>
          cases hsub : req.params.subject with
          | none => simp [hc, hl, hs, hr, hsub] at he
          | some s0 =>
            refine ⟨s0, rfl, ?_⟩
            cases hcap : captcha with
            | unparseable => simp [hc, hl, hs, hr, hsub, hcap] at he
            | parsed success =>
              by_cases hv : Legacy.recaptchaVerify success = true
              · simp only [hc, hl, hs, hr, hsub, hcap, hv, if_true] at he
                split at he
                · simp at he
                · cases smtp <;> simp only [] at he <;>
                    (rcases List.mem_map.mp he with ⟨r, hr2, rfl⟩; rfl)
              · simp only [Bool.not_eq_true] at hv
                simp [hc, hl, hs, hr, hsub, hcap, hv] at he

theorem getEmailsA_error_status (cfg : Hisecon.MailConfig) (site : Hisecon.SiteConfig)
    (req : Hisecon.Request) (s : Nat) (m : String)
    (h : Hisecon.get_emails cfg site req = .error (s, m)) : s = 400 := by
  unfold Hisecon.get_emails at h
  cases hsub : req.args.subject with
  | none =>
    rw [hsub] at h
    simp only [Except.error.injEq, Prod.mk.injEq] at h
    exact h.1.symm
  | some subj =>
    rw [hsub] at h
    rcases hgb : Hisecon.get_body req.args req.data with ⟨plain, html⟩
    simp only [hgb] at h
    by_cases hb : (falsyOpt plain && falsyOpt html) = true
    · rw [if_pos hb] at h
      simp only [Except.error.injEq, Prod.mk.injEq] at h
      exact h.1.symm
    · rw [if_neg hb] at h
      cases h

theorem sendA_sent_sub (cfg : Hisecon.MailConfig) (sites : List (String × Hisecon.SiteConfig))
    (req : Hisecon.Request) (cOk mOk : Bool) (e : Hisecon.EMail)
    (he : e ∈ (Hisecon.send_emails cfg sites req cOk mOk).sent) :
    ∃ c site es, req.args.config = some c ∧ sites.lookup c = some site ∧
      Hisecon.get_emails cfg site req = .ok es ∧ e ∈ es := by
  cases hc : req.args.config with
  | none => rw [sendA_config_none cfg sites req cOk mOk hc] at he; cases he
  | some c =>
    cases hl : List.lookup c sites with
    | none => rw [sendA_site_none cfg sites req cOk mOk c hc hl] at he; cases he
    | some site =>
      cases hs : site.secret with
      | none => rw [sendA_secret_none cfg sites req cOk mOk c site hc hl hs] at he; cases he
      | some sec =>
        cases hr : req.args.response with
        | none =>
          rw [sendA_response_none cfg sites req cOk mOk c sec site hc hl hs hr] at he
          cases he
        | some resp =>
          cases hcap : cOk with
          | false =>
            rw [hcap] at he
            rw [sendA_captcha_failed cfg sites req mOk c sec resp site hc hl hs hr] at he
            cases he
          | true =>
            rw [hcap] at he
            cases hge : Hisecon.get_emails cfg site req with
            | error err =>
              rcases err with ⟨s, m⟩
              rw [sendA_emails_error cfg sites req mOk c sec resp site s m hc hl hs hr hge] at he
              cases he
            | ok es =>
              cases es with
              | nil =>
                rw [sendA_emails_empty cfg sites req mOk c sec resp site hc hl hs hr hge] at he
                cases he
              | cons e0 tl =>
                refine ⟨c, site, e0 :: tl, rfl, hl, hge, ?_⟩
                rw [sendA_delivery cfg sites req mOk c sec resp site e0 tl hc hl hs hr hge] at he
                cases mOk <;> simpa using he

theorem sites0_secrets : ∀ c site, sites0.lookup c = some site → site.secret ≠ none := by
  intro c site h
  simp only [sites0, List.lookup_cons] at h
  split at h
  · cases h; simp [site0]
  · simp at h

theorem sitesNoRec_secrets : ∀ c site, sitesNoRec.lookup c = some site → site.secret ≠ none := by
  intro c site h
  simp only [sitesNoRec, List.lookup_cons] at h
  split at h
  · cases h; simp [siteNoRec]
  · simp at h

/-- C8: for every reCAPTCHA verification response in the legacy version,
verification fails and the request is rejected with a 400 error exactly
when the parsed response carries a success field that is false or
absent, and an unparseable response body yields a 500 error instead. -/
theorem C8_captcha_verification (cfg : Legacy.MailConfig)
    (sites : List (String × Legacy.Site)) (req : Legacy.Request)
    (smtp : Legacy.SmtpOutcome) (c sec resp s0 : String) (site : Legacy.Site)
    (hc : req.params.config = some c) (hl : sites.lookup c = some site)
    (hs : site.secret = some sec) (hr : req.params.response = some resp)
    (hsub : req.params.subject = some s0) :
    ((Legacy.post cfg sites req .unparseable smtp).status = 500 ∧
      (Legacy.post cfg sites req .unparseable smtp).message =
        "Could not parse JSON response of reCAPTCHA") ∧
    ∀ success : Option Bool,
      (((Legacy.post cfg sites req (.parsed success) smtp).status = 400 ∧
        (Legacy.post cfg sites req (.parsed success) smtp).message =
          "reCAPTCHA check failed")
        ↔ (success = some false ∨ success = none)) := by
  have hu := legacyPost_unparseable cfg sites req smtp c sec resp s0 site hc hl hs hr hsub
  refine ⟨⟨by rw [hu], by rw [hu]⟩, ?_⟩
  intro success
  constructor
  · intro hfail
    by_cases hv : Legacy.recaptchaVerify success = true
    · exact absurd hfail.2
        (legacyPost_verified_message cfg sites req smtp success c sec resp s0 site
          hc hl hs hr hsub hv)
    · cases success with
      | none => exact Or.inr rfl
      | some b =>
        cases b with
        | false => exact Or.inl rfl
        | true => exact absurd rfl hv
  · intro h
    have hv : Legacy.recaptchaVerify success = false := by
      rcases h with h | h <;> rw [h] <;> rfl
    rw [legacyPost_captcha_failed cfg sites req smtp success c sec resp s0 site
      hc hl hs hr hsub hv]
    exact ⟨rfl, rfl⟩

/-- Witness for C8 at a concrete request and registry. -/
theorem C8_captcha_verification_witness :
    reqL_pctSubject.params.config = some "acme" ∧
    lsites0.lookup "acme" = some lsite0 ∧
    lsite0.secret = some "sec" ∧
    reqL_pctSubject.params.response = some "tok" ∧
    reqL_pctSubject.params.subject = some "a%20b" ∧
    (Legacy.post lcfg0 lsites0 reqL_pctSubject .unparseable .delivered).status = 500 ∧
    ((Legacy.post lcfg0 lsites0 reqL_pctSubject (.parsed (some false)) .delivered).status = 400 ∧
     (Legacy.post lcfg0 lsites0 reqL_pctSubject (.parsed (some false)) .delivered).message =
       "reCAPTCHA check failed") := by
  refine ⟨rfl, by decide, rfl, rfl, rfl, ?_, ?_⟩
  · exact (C8_captcha_verification lcfg0 lsites0 reqL_pctSubject .delivered
      "acme" "sec" "tok" "a%20b" lsite0 rfl (by decide) rfl rfl rfl).1.1
  · exact ((C8_captcha_verification lcfg0 lsites0 reqL_pctSubject .delivered
      "acme" "sec" "tok" "a%20b" lsite0 rfl (by decide) rfl rfl rfl).2 (some false)).mpr
      (Or.inl rfl)

/-- C10: in the JSON-body version the message text goes to the HTML body
exactly when the content type is text/plain, to the plain body exactly
when it is text/html or application/xhtml+xml, and any other content
type leaves both bodies empty. -/
theorem C10_content_type_mapping (req : HiseconPkg.Request) (ct t : String)
    (hct : req.contentType = some ct) (ht : req.text = some t) :
    (ct = "text/plain" →
      HiseconPkg.get_html_text req = .ok (some t) ∧
      HiseconPkg.get_plain_text req = .ok none) ∧
    ((ct = "text/html" ∨ ct = "application/xhtml+xml") →
      HiseconPkg.get_plain_text req = .ok (some t) ∧
      HiseconPkg.get_html_text req = .ok none) ∧
    (ct ≠ "text/plain" → ct ≠ "text/html" → ct ≠ "application/xhtml+xml" →
      HiseconPkg.get_html_text req = .ok none ∧
      HiseconPkg.get_plain_text req = .ok none) := by
  refine ⟨?_, ?_, ?_⟩
  · rintro rfl
    constructor <;>
      simp [HiseconPkg.get_html_text, HiseconPkg.get_plain_text,
        HiseconPkg.get_content_type, HiseconPkg.get_text, hct, ht,
        Bind.bind, Except.bind, pure, Except.pure]
  · rintro (rfl | rfl) <;>
      constructor <;>
        simp [HiseconPkg.get_html_text, HiseconPkg.get_plain_text,
          HiseconPkg.get_content_type, HiseconPkg.get_text, hct, ht,
          Bind.bind, Except.bind, pure, Except.pure]
  · intro h1 h2 h3
    constructor <;>
      simp [HiseconPkg.get_html_text, HiseconPkg.get_plain_text,
        HiseconPkg.get_content_type, HiseconPkg.get_text, hct, ht, h1, h2, h3,
        Bind.bind, Except.bind, pure, Except.pure]

/-- Witness for C10 at a concrete text/plain request. -/
theorem C10_content_type_mapping_witness :
    reqB_plainType.contentType = some "text/plain" ∧
    reqB_plainType.text = some "msg" ∧
    (HiseconPkg.get_html_text reqB_plainType = .ok (some "msg") ∧
     HiseconPkg.get_plain_text reqB_plainType = .ok none) :=
  ⟨rfl, rfl, (C10_content_type_mapping reqB_plainType "text/plain" "msg" rfl rfl).1 rfl⟩


/-- C1 counterexample: a request with config and response present but
subject absent still invokes the CAPTCHA verifier before rejecting. -/
theorem C1_counterexample :
    reqA_noSubject.args.subject = none ∧
    (Hisecon.send_emails cfg0 sites0 reqA_noSubject true true).captchaInvoked = true ∧
    (Hisecon.send_emails cfg0 sites0 reqA_noSubject true true).status = 400 := by
  decide

/-- C1 amended: requests missing config or response are rejected with
400 before CAPTCHA verification and before any send; a request missing
only the subject is rejected with 400 and never reaches the transport,
though CAPTCHA verification may already have been attempted. -/
theorem C1_missing_params_amended (cfg : Hisecon.MailConfig)
    (sites : List (String × Hisecon.SiteConfig)) (req : Hisecon.Request)
    (captchaOk mailerOk : Bool)
    (hsec : ∀ c site, sites.lookup c = some site → site.secret ≠ none) :
    ((req.args.config = none ∨ req.args.response = none) →
      (Hisecon.send_emails cfg sites req captchaOk mailerOk).status = 400 ∧
      (Hisecon.send_emails cfg sites req captchaOk mailerOk).captchaInvoked = false ∧
      (Hisecon.send_emails cfg sites req captchaOk mailerOk).sendInvoked = false) ∧
    (req.args.subject = none →
      (Hisecon.send_emails cfg sites req captchaOk mailerOk).status = 400 ∧
      (Hisecon.send_emails cfg sites req captchaOk mailerOk).sendInvoked = false) := by
  constructor
  · intro h
    cases hc : req.args.config with
    | none =>
      rw [sendA_config_none cfg sites req captchaOk mailerOk hc]
      exact ⟨rfl, rfl, rfl⟩
    | some c =>
      have hr : req.args.response = none := by
        rcases h with h | h
        · rw [hc] at h; cases h
        · exact h
      cases hl : List.lookup c sites with
      | none =>
        rw [sendA_site_none cfg sites req captchaOk mailerOk c hc hl]
        exact ⟨rfl, rfl, rfl⟩
      | some site =>
        cases hsx : site.secret with
        | none => exact absurd hsx (hsec c site hl)
        | some sec =>
          rw [sendA_response_none cfg sites req captchaOk mailerOk c sec site hc hl hsx hr]
          exact ⟨rfl, rfl, rfl⟩
  · intro hsub
    cases hc : req.args.config with
    | none =>
      rw [sendA_config_none cfg sites req captchaOk mailerOk hc]
      exact ⟨rfl, rfl⟩
    | some c =>
      cases hl : List.lookup c sites with
      | none =>
        rw [sendA_site_none cfg sites req captchaOk mailerOk c hc hl]
        exact ⟨rfl, rfl⟩
      | some site =>
        cases hsx : site.secret with
        | none => exact absurd hsx (hsec c site hl)
        | some sec =>
          cases hr : req.args.response with
          | none =>
            rw [sendA_response_none cfg sites req captchaOk mailerOk c sec site hc hl hsx hr]
            exact ⟨rfl, rfl⟩
          | some resp =>
            cases captchaOk with
            | false =>
              rw [sendA_captcha_failed cfg sites req mailerOk c sec resp site hc hl hsx hr]
              exact ⟨rfl, rfl⟩
            | true =>
              rw [sendA_emails_error cfg sites req mailerOk c sec resp site 400
                "No subject provided" hc hl hsx hr (getEmailsA_no_subject cfg site req hsub)]
              exact ⟨rfl, rfl⟩

/-- Witness for C1 amended at concrete requests. -/
theorem C1_missing_params_witness :
    reqA_noResponse.args.response = none ∧
    ((Hisecon.send_emails cfg0 sites0 reqA_noResponse true true).status = 400 ∧
     (Hisecon.send_emails cfg0 sites0 reqA_noResponse true true).captchaInvoked = false ∧
     (Hisecon.send_emails cfg0 sites0 reqA_noResponse true true).sendInvoked = false) ∧
    reqA_noSubject.args.subject = none ∧
    ((Hisecon.send_emails cfg0 sites0 reqA_noSubject true true).status = 400 ∧
     (Hisecon.send_emails cfg0 sites0 reqA_noSubject true true).sendInvoked = false) :=
  ⟨rfl,
   (C1_missing_params_amended cfg0 sites0 reqA_noResponse true true sites0_secrets).1
     (Or.inr rfl),
   rfl,
   (C1_missing_params_amended cfg0 sites0 reqA_noSubject true true sites0_secrets).2 rfl⟩

/-- C2 counterexample: in the JSON-body version, a request whose content
type is neither text/plain nor an HTML type produces an email with both
bodies empty, and that email is handed to the mail transport. -/
theorem C2_counterexample :
    (HiseconPkg.send_emails cfg0 sites0 reqB_otherType true).sendInvoked = true ∧
    (HiseconPkg.send_emails cfg0 sites0 reqB_otherType true).sent =
      [⟨"Hi", "noreply@x.com", "a@x.com", none, none, none⟩] ∧
    falsyOpt (⟨"Hi", "noreply@x.com", "a@x.com", none, none, none⟩ : HiseconPkg.EMail).plain
      = true ∧
    falsyOpt (⟨"Hi", "noreply@x.com", "a@x.com", none, none, none⟩ : HiseconPkg.EMail).html
      = true := by
  decide

/-- C2 amended: in the current query-parameter version every email
handed to the transport has a non-empty plain or HTML body, and when
both resolved bodies are empty the request is rejected with a 400 error
without invoking the transport, provided every registered site has a
secret; the JSON-body version does not enforce the invariant. -/
theorem C2_body_invariant_amended (cfg : Hisecon.MailConfig)
    (sites : List (String × Hisecon.SiteConfig)) (req : Hisecon.Request)
    (captchaOk mailerOk : Bool)
    (hsec : ∀ c site, sites.lookup c = some site → site.secret ≠ none) :
    (∀ e ∈ (Hisecon.send_emails cfg sites req captchaOk mailerOk).sent,
      falsyOpt e.plain = false ∨ falsyOpt e.html = false) ∧
    ((falsyOpt (Hisecon.get_body req.args req.data).1 &&
      falsyOpt (Hisecon.get_body req.args req.data).2) = true →
      (Hisecon.send_emails cfg sites req captchaOk mailerOk).sendInvoked = false ∧
      (Hisecon.send_emails cfg sites req captchaOk mailerOk).status = 400) := by
  constructor
  · intro e he
    obtain ⟨c, site, es, hc, hl, hok, hmem⟩ :=
      sendA_sent_sub cfg sites req captchaOk mailerOk e he
    obtain ⟨subj, hsub, hbody, hes⟩ := getEmailsA_ok_inv cfg site req es hok
    subst hes
    rcases List.mem_map.mp hmem with ⟨r, _, rfl⟩
    cases hfa : falsyOpt (Hisecon.get_body req.args req.data).1 with
    | false => exact Or.inl rfl
    | true =>
      refine Or.inr ?_
      rw [hfa] at hbody
      simpa using hbody
  · intro hb
    cases hc : req.args.config with
    | none =>
      rw [sendA_config_none cfg sites req captchaOk mailerOk hc]
      exact ⟨rfl, rfl⟩
    | some c =>
      cases hl : List.lookup c sites with
      | none =>
        rw [sendA_site_none cfg sites req captchaOk mailerOk c hc hl]
        exact ⟨rfl, rfl⟩
      | some site =>
        cases hsx : site.secret with
        | none => exact absurd hsx (hsec c site hl)
        | some sec =>
          cases hr : req.args.response with
          | none =>
            rw [sendA_response_none cfg sites req captchaOk mailerOk c sec site hc hl hsx hr]
            exact ⟨rfl, rfl⟩
          | some resp =>
            cases captchaOk with
            | false =>
              rw [sendA_captcha_failed cfg sites req mailerOk c sec resp site hc hl hsx hr]
              exact ⟨rfl, rfl⟩
            | true =>
              cases hsub : req.args.subject with
              | none =>
                rw [sendA_emails_error cfg sites req mailerOk c sec resp site 400
                  "No subject provided" hc hl hsx hr (getEmailsA_no_subject cfg site req hsub)]
                exact ⟨rfl, rfl⟩
              | some subj =>
                rw [sendA_emails_error cfg sites req mailerOk c sec resp site 400
                  "No message body provided." hc hl hsx hr
                  (getEmailsA_falsy_body cfg site req subj hsub hb)]
                exact ⟨rfl, rfl⟩

/-- Witness for C2 amended: against a secret-bearing registry, a valid
request produces an email with a non-empty plain body, and an empty raw
body is rejected with 400 and never sent. -/
theorem C2_body_invariant_witness :
    emailA_ok ∈ (Hisecon.send_emails cfg0 sites0 reqA_ok true true).sent ∧
    (falsyOpt emailA_ok.plain = false ∨ falsyOpt emailA_ok.html = false) ∧
    (falsyOpt (Hisecon.get_body reqA_emptyBody.args reqA_emptyBody.data).1 &&
     falsyOpt (Hisecon.get_body reqA_emptyBody.args reqA_emptyBody.data).2) = true ∧
    ((Hisecon.send_emails cfg0 sites0 reqA_emptyBody true true).sendInvoked = false ∧
     (Hisecon.send_emails cfg0 sites0 reqA_emptyBody true true).status = 400) := by
  refine ⟨by decide, ?_, by decide, ?_⟩
  · exact (C2_body_invariant_amended cfg0 sites0 reqA_ok true true sites0_secrets).1
      emailA_ok (by decide)
  · exact (C2_body_invariant_amended cfg0 sites0 reqA_emptyBody true true sites0_secrets).2
      (by decide)

/-- C3 counterexample: in the legacy version the raw body is
percent-decoded before use, so with the html flag set the HTML body of
the assembled email differs from the raw request body. -/
theorem C3_counterexample :
    (Legacy.post lcfg0 lsites0 reqL_htmlPct (.parsed (some true)) .delivered).sent.map
        Legacy.EMail.html = [some "a b"] ∧
    reqL_htmlPct.data = "a%20b" ∧
    (some "a b" : Option String) ≠ some "a%20b" := by
  decide

/-- C3 amended: in the current version a text format yields the raw body
with literal br tags replaced by newlines as the plain body and no HTML
body, and the html and json formats yield the raw body verbatim as the
HTML body with no plain body; the legacy version additionally
percent-decodes the raw body before use. -/
theorem C3_body_format_amended (args : Hisecon.Args) (data : String) :
    (Hisecon.get_format args = "text" →
      Hisecon.get_body args data = (some (pyReplaceBr data), none)) ∧
    (Hisecon.get_format args = "html" ∨ Hisecon.get_format args = "json" →
      Hisecon.get_body args data = (none, some data)) ∧
    (∀ d : String,
      Legacy.get_text d true = (some (pyUnquote d), none) ∧
      Legacy.get_text d false = (none, some (pyReplaceBr (pyUnquote d)))) := by
  refine ⟨?_, ?_, fun d => ⟨rfl, rfl⟩⟩
  · intro h
    simp [Hisecon.get_body, h]
  · rintro (h | h) <;> simp [Hisecon.get_body, h]

/-- Witness for C3 amended at a defaulted text format and an explicit
html format. -/
theorem C3_body_format_witness :
    Hisecon.get_format argsA_text = "text" ∧
    Hisecon.get_body argsA_text "x<br>y" = (some (pyReplaceBr "x<br>y"), none) ∧
    Hisecon.get_format argsA_html = "html" ∧
    Hisecon.get_body argsA_html "x<br>y" = (none, some "x<br>y") :=
  ⟨rfl,
   (C3_body_format_amended argsA_text "x<br>y").1 rfl,
   rfl,
   (C3_body_format_amended argsA_html "x<br>y").2.1 (Or.inl rfl)⟩

/-- C4 counterexample: in the legacy version the html flag present with
an empty value resolves the request to plain text, not HTML. -/
theorem C4_counterexample :
    reqL_emptyHtml.params.html = some "" ∧
    reqL_emptyHtml.params.format = none ∧
    (Legacy.post lcfg0 lsites0 reqL_emptyHtml (.parsed (some true)) .delivered).sent.map
        Legacy.EMail.html = [none] ∧
    (Legacy.post lcfg0 lsites0 reqL_emptyHtml (.parsed (some true)) .delivered).sent.map
        Legacy.EMail.plain = [some "x"] := by
  decide

/-- C4 amended: in the current version the explicit format parameter
wins, a present html flag (any value, the empty one included) selects
html and absence of both selects text; in the legacy version there is no
format parameter and the html flag selects HTML only when its value is
non-empty. -/
theorem C4_format_resolution_amended (args : Hisecon.Args) (p : Legacy.Params) :
    (∀ f, args.format = some f → Hisecon.get_format args = f) ∧
    (args.format = none → ∀ h, args.html = some h → Hisecon.get_format args = "html") ∧
    (args.format = none → args.html = none → Hisecon.get_format args = "text") ∧
    (Legacy.htmlFlag p = true ↔ ∃ s, p.html = some s ∧ s ≠ "") := by
  refine ⟨?_, ?_, ?_, ?_⟩
  · intro f h; simp [Hisecon.get_format, h]
  · intro h1 h h2; simp [Hisecon.get_format, h1, h2]
  · intro h1 h2; simp [Hisecon.get_format, h1, h2]
  · unfold Legacy.htmlFlag truthyOpt
    cases hph : p.html with
    | none => simp [falsyOpt]
    | some v => simp [falsyOpt]

/-- Witness for C4 amended at concrete parameter records. -/
theorem C4_format_resolution_witness :
    argsA_html.format = some "html" ∧
    Hisecon.get_format argsA_html = "html" ∧
    argsA_text.format = none ∧
    argsA_text.html = none ∧
    Hisecon.get_format argsA_text = "text" ∧
    (Legacy.htmlFlag reqL_emptyHtml.params = true ↔
      ∃ s, reqL_emptyHtml.params.html = some s ∧ s ≠ "") :=
  ⟨rfl,
   (C4_format_resolution_amended argsA_html reqL_emptyHtml.params).1 "html" rfl,
   rfl, rfl,
   (C4_format_resolution_amended argsA_text reqL_emptyHtml.params).2.2.1 rfl rfl,
   (C4_format_resolution_amended argsA_html reqL_emptyHtml.params).2.2.2⟩

/-- C5 counterexample: the legacy version never reads the
comma-separated recipients parameter, so the merged recipient sequence
differs from the one the claim describes. -/
theorem C5_counterexample :
    reqL_recipients.params.recipients = some "b@x.com,c@x.com" ∧
    (Legacy.post lcfg0 lsites0 reqL_recipients (.parsed (some true)) .delivered).sent.map
        Legacy.EMail.recipient = ["a@x.com"] ∧
    merged_recipients_spec ["a@x.com"] none (some "b@x.com,c@x.com") none =
      ["a@x.com", "b@x.com", "c@x.com"] ∧
    (["a@x.com"] : List String) ≠ ["a@x.com", "b@x.com", "c@x.com"] := by
  decide

/-- C5 amended: in the current version the merged recipient sequence is
exactly the union the claim describes, in the order site recipients,
singular recipient parameter, comma-separated entries trimmed with empty
entries dropped, issuer last. -/
theorem C5_recipients_refinement (site : Hisecon.SiteConfig) (args : Hisecon.Args) :
    Hisecon.get_recipients site args =
      merged_recipients_spec site.recipients args.recipient args.recipients args.issuer := by
  unfold Hisecon.get_recipients merged_recipients_spec
  cases hrs : args.recipients with
  | none => rfl
  | some rs =>
    by_cases h : rs = ""
    · subst h
      have key : ((pySplitComma "").map pyStrip).filter (fun e => !(e == "")) =
          ([] : List String) := rfl
      simp [key]
    · simp [h]

/-- C6 counterexample: with the TLS override absent the mailer is built
with the constant true, not with a mail-section default; the
claim-shaped resolution with TLS default false disagrees with the code
on an otherwise identical configuration. -/
theorem C6_counterexample :
    site0.smtp = none ∧
    cfgClaim0.host = cfg0.host ∧ cfgClaim0.port = cfg0.port ∧
    cfgClaim0.user = cfg0.user ∧ cfgClaim0.passwd = cfg0.passwd ∧
    cfgClaim0.fromAddr = cfg0.fromAddr ∧
    (Hisecon.load_mailer cfg0 site0).ssl = true ∧
    (load_mailer_claim cfgClaim0 site0).ssl = false ∧
    (Hisecon.load_mailer cfg0 site0).ssl ≠ (load_mailer_claim cfgClaim0 site0).ssl := by
  decide

/-- C6 amended: host, port, user and password fall back to the
mail-section defaults and the from-address falls back to the
mail-section from entry, but the TLS flag falls back to the constant
true and is never read from the configuration. -/
theorem C6_smtp_fallback_amended (cfg : Hisecon.MailConfig) (site : Hisecon.SiteConfig) :
    (∀ s, site.smtp = some s →
      (∀ v, s.host = some v → (Hisecon.load_mailer cfg site).host = v) ∧
      (s.host = none → (Hisecon.load_mailer cfg site).host = cfg.host) ∧
      (∀ v, s.port = some v → (Hisecon.load_mailer cfg site).port = v) ∧
      (s.port = none → (Hisecon.load_mailer cfg site).port = cfg.port) ∧
      (∀ v, s.user = some v → (Hisecon.load_mailer cfg site).user = v) ∧
      (s.user = none → (Hisecon.load_mailer cfg site).user = cfg.user) ∧
      (∀ v, s.passwd = some v → (Hisecon.load_mailer cfg site).passwd = v) ∧
      (s.passwd = none → (Hisecon.load_mailer cfg site).passwd = cfg.passwd) ∧
      (∀ v, s.ssl = some v → (Hisecon.load_mailer cfg site).ssl = v) ∧
      (s.ssl = none → (Hisecon.load_mailer cfg site).ssl = true) ∧
      (∀ v, s.fromAddr = some v → Hisecon.get_sender cfg site = v) ∧
      (s.fromAddr = none → Hisecon.get_sender cfg site = cfg.fromAddr)) ∧
    (site.smtp = none →
      Hisecon.load_mailer cfg site = ⟨cfg.host, cfg.port, cfg.user, cfg.passwd, true⟩ ∧
      Hisecon.get_sender cfg site = cfg.fromAddr) := by
  constructor
  · intro s hs
    refine ⟨?_, ?_, ?_, ?_, ?_, ?_, ?_, ?_, ?_, ?_, ?_, ?_⟩ <;>
      intros <;>
      simp_all [Hisecon.load_mailer, Hisecon.get_sender]
  · intro hs
    constructor <;> simp [Hisecon.load_mailer, Hisecon.get_sender, hs]

/-- Witness for C6 amended: a full per-site override is used as given,
and with no smtp object every setting is the global default with the
TLS flag true. -/
theorem C6_smtp_fallback_witness :
    siteSmtp.smtp = some smtpFull ∧
    smtpFull.host = some "h2" ∧
    (Hisecon.load_mailer cfg0 siteSmtp).host = "h2" ∧
    site0.smtp = none ∧
    Hisecon.load_mailer cfg0 site0 =
      ⟨cfg0.host, cfg0.port, cfg0.user, cfg0.passwd, true⟩ := by
  refine ⟨rfl, rfl, ?_, rfl, ?_⟩
  · exact ((C6_smtp_fallback_amended cfg0 siteSmtp).1 smtpFull rfl).1 "h2" rfl
  · exact ((C6_smtp_fallback_amended cfg0 site0).2 rfl).1

/-- C7 counterexample: the current version uses the subject parameter
without percent-decoding it. -/
theorem C7_counterexample :
    reqA_pctSubject.args.subject = some "a%20b" ∧
    (Hisecon.send_emails cfg0 sites0 reqA_pctSubject true true).sent.map
        Hisecon.EMail.subject = ["a%20b"] ∧
    pyUnquote "a%20b" = "a b" ∧
    ("a%20b" : String) ≠ pyUnquote "a%20b" := by
  decide

/-- C7 amended: in the current version every assembled email carries the
subject parameter value unchanged; the legacy version percent-decodes
the subject parameter before use. -/
theorem C7_subject_amended (cfg : Hisecon.MailConfig)
    (sites : List (String × Hisecon.SiteConfig)) (req : Hisecon.Request)
    (captchaOk mailerOk : Bool)
    (lcfg : Legacy.MailConfig) (lsites : List (String × Legacy.Site))
    (lreq : Legacy.Request) (captcha : Legacy.CaptchaResult) (smtp : Legacy.SmtpOutcome)
    (s ls : String) :
    (req.args.subject = some s →
      ∀ e ∈ (Hisecon.send_emails cfg sites req captchaOk mailerOk).sent,
        e.subject = s) ∧
    (lreq.params.subject = some ls →
      ∀ e ∈ (Legacy.post lcfg lsites lreq captcha smtp).sent,
        e.subject = pyUnquote ls) := by
  constructor
  · intro hs e he
    obtain ⟨c, site, es, hc, hl, hok, hmem⟩ :=
      sendA_sent_sub cfg sites req captchaOk mailerOk e he
    obtain ⟨subj, hsub, _, hes⟩ := getEmailsA_ok_inv cfg site req es hok
    subst hes
    rcases List.mem_map.mp hmem with ⟨r, _, rfl⟩
    rw [hs] at hsub
    cases hsub
    rfl
  · intro hls e he
    obtain ⟨s0, hs0, hsubj⟩ := legacyPost_subject_inv lcfg lsites lreq captcha smtp e he
    rw [hls] at hs0
    cases hs0
    exact hsubj

/-- Witness for C7 amended at a delivered request in each version. -/
theorem C7_subject_witness :
    reqA_ok.args.subject = some "Hi" ∧
    emailA_ok.subject = "Hi" ∧
    reqL_pctSubject.params.subject = some "a%20b" ∧
    (⟨"a b", "noreply@x.com", "a@x.com", some "hello", none⟩ : Legacy.EMail).subject =
      pyUnquote "a%20b" := by
  refine ⟨rfl, ?_, rfl, ?_⟩
  · exact (C7_subject_amended cfg0 sites0 reqA_ok true true lcfg0 lsites0 reqL_pctSubject
      (.parsed (some true)) .delivered "Hi" "a%20b").1 rfl emailA_ok (by decide)
  · exact (C7_subject_amended cfg0 sites0 reqA_ok true true lcfg0 lsites0 reqL_pctSubject
      (.parsed (some true)) .delivered "Hi" "a%20b").2 rfl
      ⟨"a b", "noreply@x.com", "a@x.com", some "hello", none⟩ (by decide)

/-- C9: in the current and JSON-body versions a request whose merged
recipient set is empty is rejected with 400 and the transport is never
invoked, provided every registered site has a secret. -/
theorem C9_empty_recipients (cfg : Hisecon.MailConfig)
    (sites : List (String × Hisecon.SiteConfig)) (req : Hisecon.Request)
    (captchaOk mailerOk : Bool) (jreq : HiseconPkg.Request) (jcaptchaOk : Bool)
    (hsec : ∀ c site, sites.lookup c = some site → site.secret ≠ none)
    (hA : ∀ c site, req.args.config = some c → sites.lookup c = some site →
      Hisecon.get_recipients site req.args = [])
    (hB : ∀ c site, jreq.config = some c → sites.lookup c = some site →
      HiseconPkg.get_recipients site jreq = []) :
    ((Hisecon.send_emails cfg sites req captchaOk mailerOk).status = 400 ∧
     (Hisecon.send_emails cfg sites req captchaOk mailerOk).sendInvoked = false) ∧
    ((HiseconPkg.send_emails cfg sites jreq jcaptchaOk).status = 400 ∧
     (HiseconPkg.send_emails cfg sites jreq jcaptchaOk).sendInvoked = false) := by
  constructor
  · cases hc : req.args.config with
    | none =>
      rw [sendA_config_none cfg sites req captchaOk mailerOk hc]
      exact ⟨rfl, rfl⟩
    | some c =>
      cases hl : List.lookup c sites with
      | none =>
        rw [sendA_site_none cfg sites req captchaOk mailerOk c hc hl]
        exact ⟨rfl, rfl⟩
      | some site =>
        cases hsx : site.secret with
        | none => exact absurd hsx (hsec c site hl)
        | some sec =>
          cases hr : req.args.response with
          | none =>
            rw [sendA_response_none cfg sites req captchaOk mailerOk c sec site hc hl hsx hr]
            exact ⟨rfl, rfl⟩
          | some resp =>
            cases captchaOk with
            | false =>
              rw [sendA_captcha_failed cfg sites req mailerOk c sec resp site hc hl hsx hr]
              exact ⟨rfl, rfl⟩
            | true =>
              cases hge : Hisecon.get_emails cfg site req with
              | error err =>
                rcases err with ⟨st, m⟩
                have h400 := getEmailsA_error_status cfg site req st m hge
                subst h400
                rw [sendA_emails_error cfg sites req mailerOk c sec resp site 400 m
                  hc hl hsx hr hge]
                exact ⟨rfl, rfl⟩
              | ok es =>
                obtain ⟨subj, _, _, hes⟩ := getEmailsA_ok_inv cfg site req es hge
                rw [hA c site hc hl] at hes
                simp only [List.map_nil] at hes
                subst hes
                rw [sendA_emails_empty cfg sites req mailerOk c sec resp site hc hl hsx hr hge]
                exact ⟨rfl, rfl⟩
  · cases hc : jreq.config with
    | none =>
      rw [sendB_config_none cfg sites jreq jcaptchaOk hc]
      exact ⟨rfl, rfl⟩
    | some c =>
      cases hl : List.lookup c sites with
      | none =>
        rw [sendB_site_none cfg sites jreq jcaptchaOk c hc hl]
        exact ⟨rfl, rfl⟩
      | some site =>
        cases hsx : site.secret with
        | none => exact absurd hsx (hsec c site hl)
        | some sec =>
          cases hr : jreq.response with
          | none =>
            rw [sendB_response_none cfg sites jreq jcaptchaOk c sec site hc hl hsx hr]
            exact ⟨rfl, rfl⟩
          | some resp =>
            cases jcaptchaOk with
            | false =>
              rw [sendB_captcha_failed cfg sites jreq c sec resp site hc hl hsx hr]
              exact ⟨rfl, rfl⟩
            | true =>
              rw [sendB_emails_empty cfg sites jreq c sec resp site hc hl hsx hr
                (getEmailsB_nil cfg site jreq (hB c site hc hl))]
              exact ⟨rfl, rfl⟩

/-- Witness for C9 at a site with no default recipients and requests
naming none. -/
theorem C9_empty_recipients_witness :
    (∀ c site, reqA_noRecipients.args.config = some c → sitesNoRec.lookup c = some site →
      Hisecon.get_recipients site reqA_noRecipients.args = []) ∧
    (∀ c site, reqB_noRecipients.config = some c → sitesNoRec.lookup c = some site →
      HiseconPkg.get_recipients site reqB_noRecipients = []) ∧
    ((Hisecon.send_emails cfg0 sitesNoRec reqA_noRecipients true true).status = 400 ∧
     (Hisecon.send_emails cfg0 sitesNoRec reqA_noRecipients true true).sendInvoked = false) ∧
    ((HiseconPkg.send_emails cfg0 sitesNoRec reqB_noRecipients true).status = 400 ∧
     (HiseconPkg.send_emails cfg0 sitesNoRec reqB_noRecipients true).sendInvoked = false) := by
  have hA : ∀ c site, reqA_noRecipients.args.config = some c →
      sitesNoRec.lookup c = some site →
      Hisecon.get_recipients site reqA_noRecipients.args = [] := by
    intro c site hc hl
    simp only [reqA_noRecipients] at hc
    cases hc
    have hx : sitesNoRec.lookup "acme" = some siteNoRec := by decide
    rw [hx] at hl
    cases hl
    decide
  have hB : ∀ c site, reqB_noRecipients.config = some c →
      sitesNoRec.lookup c = some site →
      HiseconPkg.get_recipients site reqB_noRecipients = [] := by
    intro c site hc hl
    simp only [reqB_noRecipients] at hc
    cases hc
    have hx : sitesNoRec.lookup "acme" = some siteNoRec := by decide
    rw [hx] at hl
    cases hl
    decide
  have h := C9_empty_recipients cfg0 sitesNoRec reqA_noRecipients true true
    reqB_noRecipients true sitesNoRec_secrets hA hB
  exact ⟨hA, hB, h.1, h.2⟩
